import Mathlib

/-!
Shallow embedding of the risk-aggregation core of `sol_safety_check`
(`sol_safety_check/risk/rules.py` and `sol_safety_check/risk/scoring.py`).

Modelling conventions:
* Python dict values reaching the rules are modelled by `PyVal`: a key can be
  absent, present with value `None`, or present with a typed value.  `d.get(k)`
  is `PyVal.get` (absent and `None` both give `none`); `d.get(k, default)` is
  `PyVal.getD` (the default fires only when the key is absent; a stored `None`
  comes back as `none`, exactly as in Python).
* Python numbers (`int` / `float` / `Decimal`) are modelled as exact rationals
  `ℚ`.  The float rule weights 0.20, 0.25, ... are scaled by 100 to the
  naturals 20, 25, ...; the weighted mean is invariant under this scaling and
  Python's `int()` truncation of the non-negative quotient is `Nat` division.
* A `None`-valued optional dict and an empty dict are both falsy in Python and
  are both modelled as `none`; a truthy (non-empty) dict is `some record`.
* Python exceptions (`AttributeError` from `None.lower()`, `TypeError` from
  `float(None)`) are modelled with `Except String`.
* `datetime` values are Unix timestamps in seconds as `ℚ`; `datetime.now()`
  inside `check_age_hype` becomes an explicit `now : ℚ` argument.
* String formatting: `f"{x:,.0f}"` and `f"{x:.1f}"` round half-to-even on the
  exact rational (Python rounds the underlying binary float; the difference is
  immaterial to every property proved here), and `f"{x}"` on a number prints
  its exact decimal expansion.
-/

attribute [local semireducible] Rat.add Rat.sub Rat.mul Rat.inv

namespace SolSafety

/-- One slot of a Python dict: the key can be absent, mapped to `None`, or
mapped to a typed value. -/
inductive PyVal (α : Type) where
  | absent
  | null
  | val (a : α)
deriving DecidableEq, Repr

/-- Python `d.get(k)`: `None` both when the key is absent and when it maps to
`None`. -/
def PyVal.get {α : Type} : PyVal α → Option α
  | .absent => none
  | .null => none
  | .val a => some a

/-- Python `d.get(k, default)`: the default only fires when the key is absent;
a stored `None` is returned as `none`. -/
def PyVal.getD {α : Type} (d : α) : PyVal α → Option α
  | .absent => some d
  | .null => none
  | .val a => some a

/-- Python truthiness of an optional string (`None` and `""` are falsy). -/
def optStrTruthy : Option String → Bool
  | none => false
  | some s => s ≠ ""

/-- Python truthiness of an optional number (`None` and `0` are falsy). -/
def optNumTruthy : Option ℚ → Bool
  | none => false
  | some q => q ≠ 0

/-- Python truthiness of an optional bool (`None` is falsy). -/
def optBoolTruthy : Option Bool → Bool
  | none => false
  | some b => b

/-- Round half-to-even to an integer, used by Python's fixed-point string
formatting. -/
def roundHalfEven (q : ℚ) : ℤ :=
  let f : ℤ := ⌊q⌋
  let r : ℚ := q - f
  if r < 1/2 then f
  else if 1/2 < r then f + 1
  else if f % 2 = 0 then f else f + 1

/-- Insert thousands separators into a digit list given least-significant
first. -/
def revGroup3 : List Char → List Char
  | d1 :: d2 :: d3 :: d4 :: rest => d1 :: d2 :: d3 :: ',' :: revGroup3 (d4 :: rest)
  | l => l

/-- Python `f"{x:,.0f}"`: round to an integer, comma-group the digits. -/
def fmtComma0 (q : ℚ) : String :=
  let n := roundHalfEven q
  let digits := (toString n.natAbs).data
  (if n < 0 then "-" else "") ++ String.mk (revGroup3 digits.reverse).reverse

/-- Python `f"{x:.1f}"`: one digit after the decimal point, round
half-to-even. -/
def fmt1 (q : ℚ) : String :=
  let m := roundHalfEven (q * 10)
  (if m < 0 then "-" else "") ++ toString (m.natAbs / 10) ++ "." ++ toString (m.natAbs % 10)

/-- Decimal digits of a rational in [0,1), most significant first, up to the
given fuel (every Python `int`/`Decimal` reaching the rules has a finite
decimal expansion). -/
def fracDigits : ℕ → ℚ → List Char
  | 0, _ => []
  | fuel + 1, q =>
    if q = 0 then []
    else
      let q10 := q * 10
      let d : ℤ := ⌊q10⌋
      Nat.digitChar d.toNat :: fracDigits fuel (q10 - d)

/-- Python `f"{x}"` on a number: its exact decimal expansion. -/
def pyNum (q : ℚ) : String :=
  let a : ℚ := |q|
  let ip : ℤ := ⌊a⌋
  let frac := fracDigits 20 (a - ip)
  (if q < 0 then "-" else "") ++ toString ip ++
    (if frac.isEmpty then "" else "." ++ String.mk frac)

/-- `models.RiskNote`: the atomic output of one rule. -/
structure RiskNote where
  rule_name : String
  score : ℕ
  message : String
  severity : String
deriving DecidableEq, Repr

/-- The repeated Python expression
`"high" if score >= hi else "medium" if score >= md else "low"`. -/
def severityFor (hi md s : ℕ) : String :=
  if hi ≤ s then "high" else if md ≤ s then "medium" else "low"

/-- Python `"; ".join(messages)`. -/
def joinSemi (l : List String) : String :=
  String.intercalate "; " l

/-- Python `str.lower()` (ASCII data only reaches the rules). -/
def pyLower (s : String) : String :=
  String.mk (s.data.map Char.toLower)

/-- Python `str.replace(".", "")`: the pattern is a single character, so the
replacement deletes every dot. -/
def pyRemoveDots (s : String) : String :=
  String.mk (s.data.filter fun c => c ≠ '.')

/-- The slice of a token-metadata dict read by `check_authorities`. -/
structure TokenMetaD where
  mint_authority : PyVal String
  is_mint_authority_renounced : PyVal Bool
  freeze_authority : PyVal String
  is_freeze_authority_renounced : PyVal Bool
deriving DecidableEq, Repr

/-- The slice of a trading-pair dict read by the rules. -/
structure PairD where
  liquidity_usd : PyVal ℚ
  pair_created_at : PyVal ℚ
  volume_24h_usd : PyVal ℚ
  dex_id : PyVal String
deriving DecidableEq, Repr

/-- The slice of a holder dict read by `check_concentration`. -/
structure HolderD where
  balance : PyVal ℚ
deriving DecidableEq, Repr

/-- The slice of a liquidity-lock dict read by `check_liquidity`. -/
structure LockD where
  is_locked : PyVal Bool
  locked_percentage : PyVal ℚ
  lock_duration_days : PyVal ℚ
deriving DecidableEq, Repr

/-- The slice of a trading-info dict read by `check_tradeability`. -/
structure TradingD where
  can_sell : PyVal Bool
  sell_tax_percentage : PyVal ℚ
  buy_tax_percentage : PyVal ℚ
  is_honeypot : PyVal Bool
deriving DecidableEq, Repr

/-- The slice of a pump.fun dict read by `check_pump_fun`. -/
structure PumpD where
  is_pump_fun_token : PyVal Bool
  dev_holdings_percentage : PyVal ℚ
  migration_status : PyVal String
deriving DecidableEq, Repr

/-- The slice of a RugCheck dict read by `check_rugcheck_override`. -/
structure RugD where
  risk_level : PyVal String
deriving DecidableEq, Repr

/-- The `if mint_authority and not is_mint_renounced` guard of
`check_authorities` (`mint_authority` is truthy and the renounced flag,
defaulting to `False`, is falsy). -/
def mintAuthorityFires (tm : TokenMetaD) : Bool :=
  optStrTruthy tm.mint_authority.get &&
    !optBoolTruthy (tm.is_mint_authority_renounced.getD false)

/-- The `if freeze_authority and not is_freeze_renounced` guard of
`check_authorities`. -/
def freezeAuthorityFires (tm : TokenMetaD) : Bool :=
  optStrTruthy tm.freeze_authority.get &&
    !optBoolTruthy (tm.is_freeze_authority_renounced.getD false)

/-- `RiskRules.check_authorities`. -/
def check_authorities (token_meta : Option TokenMetaD) : RiskNote :=
  match token_meta with
  | none =>
    { rule_name := "Authorities", score := 10
      message := "No authority information available", severity := "medium" }
  | some tm =>
    let mintFires := mintAuthorityFires tm
    let freezeFires := freezeAuthorityFires tm
    let score : ℕ := (if mintFires then 25 else 0) + (if freezeFires then 15 else 0)
    let messages : List String :=
      (if mintFires then ["Mint authority not renounced"] else []) ++
        (if freezeFires then ["Freeze authority present"] else [])
    let messages := if messages.isEmpty then ["Authorities properly renounced"] else messages
    { rule_name := "Authorities", score := min score 100
      message := joinSemi messages, severity := severityFor 30 15 score }

/-- The max-USD-liquidity loop at the top of `check_liquidity`: values that are
absent, `None` or falsy (`0`) are skipped. -/
def maxLiqUsd (pairs : List PairD) : ℚ :=
  pairs.foldl
    (fun m p =>
      match p.liquidity_usd.get with
      | some q => if q ≠ 0 then max m q else m
      | none => m)
    0

/-- The recurring Python guard `value and value < bound` on an optional
number. -/
def optTruthyLt (o : Option ℚ) (bound : ℚ) : Bool :=
  match o with
  | some q => q ≠ 0 && q < bound
  | none => false

/-- The lock branch of `check_liquidity` (an `if/elif` chain inside
`if liquidity_lock:`, with Python truthiness guards on the percentage and
duration). -/
def lockEval : Option LockD → ℕ × List String
  | none => (10, ["No lock information available"])
  | some l =>
    if !optBoolTruthy (l.is_locked.getD false) then
      (20, ["No liquidity lock detected"])
    else if optTruthyLt l.locked_percentage.get 60 then
      (15, ["Low lock percentage: " ++ pyNum (l.locked_percentage.get.getD 0) ++ "%"])
    else if optTruthyLt l.lock_duration_days.get 7 then
      (10, ["Short lock duration: " ++ pyNum (l.lock_duration_days.get.getD 0) ++ " days"])
    else (0, [])

/-- `RiskRules.check_liquidity`. -/
def check_liquidity (pairs : List PairD) (liquidity_lock : Option LockD) : RiskNote :=
  if pairs.isEmpty then
    { rule_name := "Liquidity", score := 25
      message := "No trading pairs found", severity := "high" }
  else
    let m := maxLiqUsd pairs
    let liqPart : ℕ × List String :=
      if m < 2000 then (25, ["Low liquidity: $" ++ fmtComma0 m])
      else if m < 10000 then (10, ["Moderate liquidity: $" ++ fmtComma0 m])
      else (0, [])
    let lockPart := lockEval liquidity_lock
    let score := liqPart.1 + lockPart.1
    let messages := liqPart.2 ++ lockPart.2
    let messages := if messages.isEmpty then ["Liquidity appears adequate"] else messages
    { rule_name := "Liquidity", score := min score 100
      message := joinSemi messages, severity := severityFor 30 15 score }

/-- `RiskRules.check_tradeability`. -/
def check_tradeability (trading_info : Option TradingD) : RiskNote :=
  match trading_info with
  | none =>
    { rule_name := "Tradeability", score := 15
      message := "No trading information available", severity := "medium" }
  | some t =>
    let canSell := optBoolTruthy (t.can_sell.getD true)
    let sellPart : ℕ × List String :=
      if !canSell then (35, ["Cannot sell tokens (honeypot)"]) else (0, [])
    let sellTaxPart : ℕ × List String :=
      match t.sell_tax_percentage.get with
      | some q =>
        if q ≠ 0 ∧ 10 < q then (35, ["High sell tax: " ++ pyNum q ++ "%"])
        else if q ≠ 0 ∧ 5 < q then (15, ["Moderate sell tax: " ++ pyNum q ++ "%"])
        else (0, [])
      | none => (0, [])
    let buyTaxPart : ℕ × List String :=
      match t.buy_tax_percentage.get with
      | some q =>
        if q ≠ 0 ∧ 10 < q then (15, ["High buy tax: " ++ pyNum q ++ "%"])
        else (0, [])
      | none => (0, [])
    let honeypotPart : ℕ × List String :=
      if optBoolTruthy (t.is_honeypot.getD false) then (35, ["Detected as honeypot"])
      else (0, [])
    let score := sellPart.1 + sellTaxPart.1 + buyTaxPart.1 + honeypotPart.1
    let messages := sellPart.2 ++ sellTaxPart.2 ++ buyTaxPart.2 ++ honeypotPart.2
    let messages := if messages.isEmpty then ["Trading appears normal"] else messages
    { rule_name := "Tradeability", score := min score 100
      message := joinSemi messages, severity := severityFor 30 15 score }

/-- The Python error raised by `float(None)` in `check_concentration`. -/
def balErrMsg : String :=
  "TypeError: float() argument must be a string or a real number, not NoneType"

/-- The `float(h.get("balance", 0))` conversions of `check_concentration`:
an absent key defaults to `0`, a stored `None` raises `TypeError`.  The source
converts balances lazily inside three sums; a `None` balance anywhere makes
the rule raise either way, so converting the whole list first is
observationally equivalent. -/
def balancesOf : List HolderD → Except String (List ℚ)
  | [] => .ok []
  | h :: hs =>
    match h.balance.getD 0 with
    | none => .error balErrMsg
    | some q =>
      match balancesOf hs with
      | .error e => .error e
      | .ok qs => .ok (q :: qs)

/-- The arithmetic of `check_concentration` after the balance conversions:
`n` is the holder count, `bs` the balances in caller order. -/
def concentrationFromBalances (n : ℕ) (bs : List ℚ) : RiskNote :=
  let top1Count := max 1 (n / 100)
  let top10Count := max 1 (n / 10)
  let top1Balance := (bs.take top1Count).sum
  let top10Balance := (bs.take top10Count).sum
  let totalBalance := bs.sum
  let parts : ℕ × List String :=
    if 0 < totalBalance then
      let top1 := top1Balance / totalBalance * 100
      let top10 := top10Balance / totalBalance * 100
      let p10 : ℕ × List String :=
        if 70 < top10 then (30, ["High top-10% concentration: " ++ fmt1 top10 ++ "%"])
        else if 50 < top10 then (15, ["Moderate top-10% concentration: " ++ fmt1 top10 ++ "%"])
        else (0, [])
      let p1 : ℕ × List String :=
        if 30 < top1 then (25, ["High top-1% concentration: " ++ fmt1 top1 ++ "%"])
        else if 20 < top1 then (10, ["Moderate top-1% concentration: " ++ fmt1 top1 ++ "%"])
        else (0, [])
      (p10.1 + p1.1, p10.2 ++ p1.2)
    else (0, [])
  let messages :=
    if parts.2.isEmpty then ["Holder distribution appears healthy"] else parts.2
  { rule_name := "Concentration", score := min parts.1 100
    message := joinSemi messages, severity := severityFor 30 15 parts.1 }

/-- `RiskRules.check_concentration`.  The holders are used in caller order:
the rule does not sort.  (The inner `if total_holders == 0` branch of the
source is unreachable after the emptiness guard and is omitted.) -/
def check_concentration (holders : List HolderD) : Except String RiskNote :=
  if holders.isEmpty then
    .ok { rule_name := "Concentration", score := 20
          message := "No holder information available", severity := "medium" }
  else
    match balancesOf holders with
    | .error e => .error e
    | .ok bs => .ok (concentrationFromBalances holders.length bs)

/-- The oldest-pair loop of `check_age_hype` (`datetime` values are always
truthy; `None` timestamps are skipped). -/
def oldestPair (pairs : List PairD) : Option ℚ :=
  pairs.foldl
    (fun o p =>
      match p.pair_created_at.get with
      | some c =>
        match o with
        | none => some c
        | some od => if c < od then some c else some od
      | none => o)
    none

/-- `RiskRules.check_age_hype`.  The source reads `datetime.now()` twice while
scoring; both reads are modelled by the explicit `now` argument (clock ticks
between the two reads are immaterial at this granularity). -/
def check_age_hype (now : ℚ) (pairs : List PairD) : RiskNote :=
  if pairs.isEmpty then
    { rule_name := "Age/Hype", score := 10
      message := "No trading pairs to analyze", severity := "low" }
  else
    let oldest := oldestPair pairs
    let agePart : ℕ × List String :=
      match oldest with
      | some od =>
        let ageHours := (now - od) / 3600
        if ageHours < 24 then (10, ["Very new token: " ++ fmt1 ageHours ++ " hours old"])
        else if ageHours < 168 then (0, ["New token: " ++ fmt1 (ageHours / 24) ++ " days old"])
        else (0, [])
      | none => (0, [])
    let hasHighVolume :=
      pairs.any fun p =>
        match p.volume_24h_usd.get with
        | some v => v ≠ 0 ∧ 1000000 < v
        | none => false
    let volumePart : ℕ × List String :=
      if hasHighVolume then
        match oldest with
        | some od =>
          if now - od < 86400 then (10, ["High volume on new token (potential PnD)"])
          else (0, [])
        | none => (0, [])
      else (0, [])
    let score := agePart.1 + volumePart.1
    let messages := agePart.2 ++ volumePart.2
    let messages :=
      if messages.isEmpty then ["Age and volume patterns appear normal"] else messages
    { rule_name := "Age/Hype", score := min score 100
      message := joinSemi messages, severity := severityFor 20 10 score }

/-- `RiskRules.check_pump_fun`. -/
def check_pump_fun (pump_fun_info : Option PumpD) : RiskNote :=
  match pump_fun_info with
  | none =>
    { rule_name := "Pump.fun", score := 0
      message := "Not a Pump.fun token", severity := "low" }
  | some i =>
    if !optBoolTruthy (i.is_pump_fun_token.getD false) then
      { rule_name := "Pump.fun", score := 0
        message := "Not a Pump.fun token", severity := "low" }
    else
      let devPart : ℕ × List String :=
        match i.dev_holdings_percentage.get with
        | some q =>
          if q ≠ 0 ∧ 20 < q then (20, ["High dev holdings: " ++ pyNum q ++ "%"])
          else (0, [])
        | none => (0, [])
      let migrationPart : ℕ × List String :=
        if i.migration_status.get = some "not_migrated" then
          (10, ["Migration not completed"])
        else (0, [])
      let score := devPart.1 + migrationPart.1
      let messages := devPart.2 ++ migrationPart.2
      let messages :=
        if messages.isEmpty then ["Pump.fun token appears normal"] else messages
      { rule_name := "Pump.fun", score := min score 100
        message := joinSemi messages, severity := severityFor 20 10 score }

/-- The Python error raised by `None.lower()`. -/
def lowerErrMsg : String :=
  "AttributeError: NoneType object has no attribute lower"

/-- The `pair.get("dex_id", "").lower()` conversions of `check_listings`:
an absent key defaults to `""`, a stored `None` raises `AttributeError`. -/
def dexIdsOf : List PairD → Except String (List String)
  | [] => .ok []
  | p :: ps =>
    match p.dex_id.getD "" with
    | none => .error lowerErrMsg
    | some s =>
      match dexIdsOf ps with
      | .error e => .error e
      | .ok ss => .ok (pyLower s :: ss)

/-- `RiskRules.check_listings`.  `found_dexs` is the set of major DEX ids
present, modelled by its cardinality. -/
def check_listings (pairs : List PairD) : Except String RiskNote :=
  if pairs.isEmpty then
    .ok { rule_name := "Listings", score := 20
          message := "No trading pairs found", severity := "medium" }
  else
    match dexIdsOf pairs with
    | .error e => .error e
    | .ok ids =>
      let majorDexs := ["raydium", "orca", "jupiter", "meteora"]
      let foundCount := (majorDexs.filter fun d => ids.contains d).length
      let parts : ℕ × List String :=
        if foundCount = 0 then (10, ["Not on major DEXs"])
        else if foundCount < 2 then (5, ["Limited DEX presence"])
        else (0, [])
      let messages := if parts.2.isEmpty then ["Good DEX presence"] else parts.2
      .ok { rule_name := "Listings", score := min parts.1 100
            message := joinSemi messages, severity := severityFor 15 5 parts.1 }

/-- `RiskRules.check_rugcheck_override`:
`rugcheck_data.get("risk_level", "").lower()` raises on a stored `None`. -/
def check_rugcheck_override (rugcheck_data : Option RugD) : Except String RiskNote :=
  match rugcheck_data with
  | none =>
    .ok { rule_name := "RugCheck", score := 0
          message := "RugCheck data not available", severity := "low" }
  | some d =>
    match d.risk_level.getD "" with
    | none => .error lowerErrMsg
    | some s =>
      let riskLevel := pyLower s
      if riskLevel = "high" then
        .ok { rule_name := "RugCheck", score := 20
              message := "RugCheck reports HIGH RISK", severity := "high" }
      else if riskLevel = "medium" then
        .ok { rule_name := "RugCheck", score := 10
              message := "RugCheck reports MEDIUM RISK", severity := "medium" }
      else
        .ok { rule_name := "RugCheck", score := 0
              message := "RugCheck reports LOW RISK", severity := "low" }

/-- The static weight dict of `RiskRules.__init__`, scaled by 100 (0.20 ↦ 20,
0.25 ↦ 25, ...): `some w` is a table hit, `none` a miss. -/
def weightsTable (key : String) : Option ℕ :=
  if key = "authorities" then some 20
  else if key = "liquidity" then some 25
  else if key = "tradeability" then some 20
  else if key = "concentration" then some 15
  else if key = "age_hype" then some 10
  else if key = "pump_fun" then some 5
  else if key = "listings" then some 5
  else none

/-- The lookup key derivation of `calculate_overall_score`:
`note.rule_name.lower().replace(".", "")`. -/
def normalizeKey (name : String) : String :=
  pyRemoveDots (pyLower name)

/-- The weight used by `calculate_overall_score` for a rule name:
`self.rules.weights.get(normalized_key, 0.1)`, scaled by 100. -/
def weightFor (name : String) : ℕ :=
  (weightsTable (normalizeKey name)).getD 10

/-- `RiskScorer.calculate_overall_score`.  Scores and the scaled weights are
non-negative integers, so Python's `int()` truncation of the float quotient is
`Nat` division (floats are modelled as exact rationals; scaling weights by 100
cancels in the quotient). -/
def calculate_overall_score (notes : List RiskNote) : ℕ :=
  if notes.isEmpty then 50
  else
    let acc :=
      notes.foldl
        (fun (a : ℕ × ℕ) note =>
          let w := weightFor note.rule_name
          (a.1 + note.score * w, a.2 + w))
        (0, 0)
    if acc.2 = 0 then 50
    else max 0 (min 100 (acc.1 / acc.2))

/-- `RiskScorer.get_risk_level`. -/
def get_risk_level (score : ℕ) : String :=
  if score ≤ 29 then "safe"
  else if score ≤ 59 then "caution"
  else "high_risk"

/-- `RiskScorer.get_verdict`. -/
def get_verdict (score : ℕ) : String :=
  if score ≤ 29 then "Likely OK (still DYOR)"
  else if score ≤ 59 then "Caution"
  else "High Risk / Avoid"

/-- `models.RiskReport`, restricted to the slices of the raw snapshots the
core reads (`generated_at` is the clock value at construction). -/
structure RiskReport where
  mint_address : String
  overall_score : ℕ
  verdict : String
  risk_level : String
  notes : List RiskNote
  token_meta : Option TokenMetaD
  pairs : List PairD
  top_holders : List HolderD
  liquidity_lock : Option LockD
  trading_info : Option TradingD
  pump_fun_info : Option PumpD
  data_sources_used : List String
  warnings : List String
  generated_at : ℚ
deriving DecidableEq, Repr

/-- `RiskScorer.assess_token_risk`.  The rules run in the source order
(Authorities, Liquidity, Tradeability, Concentration, Age/Hype, Pump.fun,
Listings, then RugCheck only when `rugcheck_data` is truthy); a Python
exception raised by Concentration pre-empts one raised by Listings, which
pre-empts one raised by RugCheck. -/
def assess_token_risk (now : ℚ) (mint_address : String)
    (token_meta : Option TokenMetaD) (pairs : List PairD)
    (holders : List HolderD) (liquidity_lock : Option LockD)
    (trading_info : Option TradingD) (pump_fun_info : Option PumpD)
    (rugcheck_data : Option RugD) (data_sources_used : List String)
    (warnings : List String) : Except String RiskReport :=
  let n1 := check_authorities token_meta
  let n2 := check_liquidity pairs liquidity_lock
  let n3 := check_tradeability trading_info
  match check_concentration holders with
  | .error e => .error e
  | .ok n4 =>
    let n5 := check_age_hype now pairs
    let n6 := check_pump_fun pump_fun_info
    match check_listings pairs with
    | .error e => .error e
    | .ok n7 =>
      let rugPart : Except String (List RiskNote) :=
        match rugcheck_data with
        | none => .ok []
        | some d =>
          match check_rugcheck_override (some d) with
          | .error e => .error e
          | .ok n8 => .ok [n8]
      match rugPart with
      | .error e => .error e
      | .ok rugNotes =>
        let notes := [n1, n2, n3, n4, n5, n6, n7] ++ rugNotes
        let overallScore := calculate_overall_score notes
        .ok { mint_address := mint_address
              overall_score := overallScore
              verdict := get_verdict overallScore
              risk_level := get_risk_level overallScore
              notes := notes
              token_meta := token_meta
              pairs := pairs
              top_holders := holders
              liquidity_lock := liquidity_lock
              trading_info := trading_info
              pump_fun_info := pump_fun_info
              data_sources_used := data_sources_used
              warnings := warnings
              generated_at := now }

/-! Spec-side restatements (used only to compare against the translated
source in refinement theorems). -/

/-- Spec wording (C9): the liquidity-threshold part of the Liquidity rule,
as a pure function of the maximum USD liquidity. -/
def specLiquidityBase (m : ℚ) : ℕ :=
  if m < 2000 then 25 else if m < 10000 then 10 else 0

/-- Spec wording (C9): the lock part of the Liquidity rule as a pure penalty
(no lock object → 10; not locked → 20; locked but below 60% locked → 15;
locked with duration under 7 days → 10; the branches are the mutually
exclusive arms of the `if/elif` chain). -/
def specLockPenalty : Option LockD → ℕ
  | none => 10
  | some l =>
    if !optBoolTruthy (l.is_locked.getD false) then 20
    else if optTruthyLt l.locked_percentage.get 60 then 15
    else if optTruthyLt l.lock_duration_days.get 7 then 10
    else 0

/-! Concrete fixtures for witnesses and counterexamples. -/

/-- A pair dict `{"liquidity_usd": 1000}`. -/
def cPair1000 : PairD :=
  { liquidity_usd := .val 1000, pair_created_at := .absent
    volume_24h_usd := .absent, dex_id := .absent }

/-- A lock dict `{"is_locked": False, "locked_percentage": 0,
"lock_duration_days": 0}`. -/
def cUnlockedLock : LockD :=
  { is_locked := .val false, locked_percentage := .val 0
    lock_duration_days := .val 0 }

/-- A pair dict `{"dex_id": None}`: the null value defeats the
`pair.get("dex_id", "")` default and reaches `.lower()`. -/
def cNullDexPair : PairD :=
  { liquidity_usd := .absent, pair_created_at := .absent
    volume_24h_usd := .absent, dex_id := .null }

/-- A holder dict `{"balance": 100}`. -/
def c7HolderBig : HolderD := { balance := .val 100 }

/-- A holder dict `{"balance": 1}`. -/
def c7HolderSmall : HolderD := { balance := .val 1 }

/-- Eight holders of balance 1. -/
def c7Tail : List HolderD := List.replicate 8 c7HolderSmall

/-- Ten holders, the 100-balance whale first. -/
def c7WhaleFirst : List HolderD := c7HolderBig :: c7HolderSmall :: c7Tail

/-- The same ten holders with the whale second. -/
def c7WhaleSecond : List HolderD := c7HolderSmall :: c7HolderBig :: c7Tail

/-- A pair dict `{"pair_created_at": epoch}` (timestamp 0). -/
def c10Pair : PairD :=
  { liquidity_usd := .absent, pair_created_at := .val 0
    volume_24h_usd := .absent, dex_id := .absent }

/-- The pairs list used to exhibit the clock dependence of
`check_age_hype`. -/
def c10Pairs : List PairD := [c10Pair]

/-- The report produced for the minimal input (address only, clock 0, no
RugCheck data). -/
def c4Report : RiskReport :=
  { mint_address := "mint"
    overall_score := 15
    verdict := "Likely OK (still DYOR)"
    risk_level := "safe"
    notes :=
      [⟨"Authorities", 10, "No authority information available", "medium"⟩,
       ⟨"Liquidity", 25, "No trading pairs found", "high"⟩,
       ⟨"Tradeability", 15, "No trading information available", "medium"⟩,
       ⟨"Concentration", 20, "No holder information available", "medium"⟩,
       ⟨"Age/Hype", 10, "No trading pairs to analyze", "low"⟩,
       ⟨"Pump.fun", 0, "Not a Pump.fun token", "low"⟩,
       ⟨"Listings", 20, "No trading pairs found", "medium"⟩]
    token_meta := none
    pairs := []
    top_holders := []
    liquidity_lock := none
    trading_info := none
    pump_fun_info := none
    data_sources_used := []
    warnings := []
    generated_at := 0 }

/-- The note list shared by the two C10 witness reports except at the
Age/Hype slot. -/
def c10NotesPre : List RiskNote :=
  [⟨"Authorities", 10, "No authority information available", "medium"⟩,
   ⟨"Liquidity", 35, "Low liquidity: $0; No lock information available", "high"⟩,
   ⟨"Tradeability", 15, "No trading information available", "medium"⟩,
   ⟨"Concentration", 20, "No holder information available", "medium"⟩]

/-- The tail of the two C10 witness reports after the Age/Hype slot. -/
def c10NotesPost : List RiskNote :=
  [⟨"Pump.fun", 0, "Not a Pump.fun token", "low"⟩,
   ⟨"Listings", 10, "Not on major DEXs", "medium"⟩]

/-- The report for `c10Pairs` scored one hour after pair creation. -/
def c10Report1 : RiskReport :=
  { mint_address := "mint"
    overall_score := 17
    verdict := "Likely OK (still DYOR)"
    risk_level := "safe"
    notes :=
      c10NotesPre ++
        ⟨"Age/Hype", 10, "Very new token: 1.0 hours old", "medium"⟩ :: c10NotesPost
    token_meta := none
    pairs := c10Pairs
    top_holders := []
    liquidity_lock := none
    trading_info := none
    pump_fun_info := none
    data_sources_used := []
    warnings := []
    generated_at := 3600 }

/-- The report for `c10Pairs` scored two hundred hours after pair
creation. -/
def c10Report2 : RiskReport :=
  { mint_address := "mint"
    overall_score := 16
    verdict := "Likely OK (still DYOR)"
    risk_level := "safe"
    notes :=
      c10NotesPre ++
        ⟨"Age/Hype", 0, "Age and volume patterns appear normal", "low"⟩ :: c10NotesPost
    token_meta := none
    pairs := c10Pairs
    top_holders := []
    liquidity_lock := none
    trading_info := none
    pump_fun_info := none
    data_sources_used := []
    warnings := []
    generated_at := 720000 }

/-! Helper lemmas. -/

/-- Every weight the scorer can use is positive (table values are 5..25,
the default is 10, all scaled by 100). -/
theorem weightFor_pos (name : String) : 0 < weightFor name := by
  unfold weightFor weightsTable
  split_ifs <;> simp

/-- The scoring loop of `calculate_overall_score` accumulates the weighted
sum and the total weight. -/
theorem overall_foldl (l : List RiskNote) (a b : ℕ) :
    (l.foldl
        (fun (acc : ℕ × ℕ) note =>
          let w := weightFor note.rule_name
          (acc.1 + note.score * w, acc.2 + w))
        (a, b)) =
      (a + (l.map fun n => n.score * weightFor n.rule_name).sum,
        b + (l.map fun n => weightFor n.rule_name).sum) := by
  induction l generalizing a b with
  | nil => simp
  | cons x t ih => simp [ih, add_assoc]

/-- C1: for every list of RiskNotes, `calculate_overall_score` is in
[0, 100] (it returns a natural number), the empty list gives exactly 50, and
a non-empty list gives the weighted mean
`sum(score * weight) / sum(weight)` truncated to an integer and clamped to
[0, 100]. -/
theorem C1_overall_score_weighted_mean (notes : List RiskNote) :
    calculate_overall_score [] = 50 ∧
    calculate_overall_score notes ≤ 100 ∧
    (notes ≠ [] →
      calculate_overall_score notes =
        min 100
          ((notes.map fun n => n.score * weightFor n.rule_name).sum /
            (notes.map fun n => weightFor n.rule_name).sum)) := by
  refine ⟨rfl, ?_, ?_⟩
  · unfold calculate_overall_score
    split
    · omega
    · rw [overall_foldl]
      dsimp only
      split
      · omega
      · simp only [Nat.zero_add, zero_add, max_eq_right (Nat.zero_le _)]
        exact min_le_left _ _
  · intro hne
    unfold calculate_overall_score
    rw [if_neg (by simpa using hne), overall_foldl]
    dsimp only
    have hw : (notes.map fun n => weightFor n.rule_name).sum ≠ 0 := by
      cases notes with
      | nil => exact absurd rfl hne
      | cons x t =>
        have := weightFor_pos x.rule_name
        simp only [List.map_cons, List.sum_cons]
        omega
    rw [if_neg (by simpa using hw)]
    simp [max_eq_right (Nat.zero_le _)]

/-- C1 witness: a single Liquidity note of score 40 has weight 0.25, so the
composite is 40. -/
theorem C1_overall_score_weighted_mean_witness :
    calculate_overall_score [⟨"Liquidity", 40, "m", "high"⟩] = 40 :=
  ((C1_overall_score_weighted_mean [⟨"Liquidity", 40, "m", "high"⟩]).2.2
      (by decide)).trans (by decide)

/-- C2: the static weight table of `RiskRules.__init__` declares
`pump_fun ↦ 0.05` (scaled: 5), but the lookup key built by
`calculate_overall_score` from the rule name "Pump.fun" is "pumpfun", which
misses the table, so the default weight 0.10 (scaled: 10) is used instead of
the declared 0.05: with notes Pump.fun = 100 and Listings = 0 the composite
is 1000/15 = 66, where the declared table weight would give 500/10 = 50. -/
theorem C2_pump_fun_weight_mismatch :
    weightsTable "pump_fun" = some 5 ∧
    normalizeKey "Pump.fun" = "pumpfun" ∧
    weightsTable "pumpfun" = none ∧
    weightFor "Pump.fun" = 10 ∧
    calculate_overall_score
        [⟨"Pump.fun", 100, "m", "high"⟩, ⟨"Listings", 0, "m", "low"⟩] = 66 := by
  refine ⟨rfl, by decide, rfl, by decide, by decide⟩

/-- C3: `get_risk_level` and `get_verdict` agree on a three-way partition of
the scores with boundaries exactly at 29/30 and 59/60, with no gaps or
overlaps: 0-29 is safe, 30-59 is caution, 60 and above is high risk. -/
theorem C3_tier_partition (s : ℕ) :
    (s ≤ 29 ↔ get_risk_level s = "safe" ∧ get_verdict s = "Likely OK (still DYOR)") ∧
    ((30 ≤ s ∧ s ≤ 59) ↔ get_risk_level s = "caution" ∧ get_verdict s = "Caution") ∧
    (60 ≤ s ↔ get_risk_level s = "high_risk" ∧ get_verdict s = "High Risk / Avoid") := by
  unfold get_risk_level get_verdict
  split_ifs with h1 h2 <;> refine ⟨?_, ?_, ?_⟩ <;> simp_all <;> omega

/-- Every Authorities note is named "Authorities". -/
theorem check_authorities_name (tm : Option TokenMetaD) :
    (check_authorities tm).rule_name = "Authorities" := by
  cases tm <;> rfl

/-- Every Liquidity note is named "Liquidity". -/
theorem check_liquidity_name (pairs : List PairD) (lock : Option LockD) :
    (check_liquidity pairs lock).rule_name = "Liquidity" := by
  unfold check_liquidity
  split <;> rfl

/-- Every Tradeability note is named "Tradeability". -/
theorem check_tradeability_name (ti : Option TradingD) :
    (check_tradeability ti).rule_name = "Tradeability" := by
  cases ti <;> rfl

/-- Every successfully produced Concentration note is named
"Concentration". -/
theorem check_concentration_name (holders : List HolderD) (n : RiskNote)
    (h : check_concentration holders = .ok n) : n.rule_name = "Concentration" := by
  unfold check_concentration at h
  split at h
  · cases h; rfl
  · cases hb : balancesOf holders <;> rw [hb] at h
    · exact absurd h (by simp)
    · cases h; rfl

/-- Every Age/Hype note is named "Age/Hype". -/
theorem check_age_hype_name (now : ℚ) (pairs : List PairD) :
    (check_age_hype now pairs).rule_name = "Age/Hype" := by
  unfold check_age_hype
  split <;> rfl

/-- Every Pump.fun note is named "Pump.fun". -/
theorem check_pump_fun_name (pfi : Option PumpD) :
    (check_pump_fun pfi).rule_name = "Pump.fun" := by
  cases pfi with
  | none => rfl
  | some i =>
    unfold check_pump_fun
    split <;> try rfl
    split <;> rfl

/-- Every successfully produced Listings note is named "Listings". -/
theorem check_listings_name (pairs : List PairD) (n : RiskNote)
    (h : check_listings pairs = .ok n) : n.rule_name = "Listings" := by
  unfold check_listings at h
  split at h
  · cases h; rfl
  · cases hd : dexIdsOf pairs <;> rw [hd] at h
    · exact absurd h (by simp)
    · cases h; rfl

/-- C4: with no RugCheck data, `assess_token_risk` produces exactly the
seven canonical rule notes in order (Authorities, Liquidity, Tradeability,
Concentration, Age/Hype, Pump.fun, Listings), no RugCheck note of any score,
and the overall score is `calculate_overall_score` of those seven notes
alone. -/
theorem C4_no_rugcheck_seven_notes (now : ℚ) (mint : String)
    (tm : Option TokenMetaD) (pairs : List PairD) (holders : List HolderD)
    (lock : Option LockD) (ti : Option TradingD) (pfi : Option PumpD)
    (dsu warns : List String) (report : RiskReport)
    (h : assess_token_risk now mint tm pairs holders lock ti pfi none dsu warns =
      .ok report) :
    (∃ n4 n7, check_concentration holders = .ok n4 ∧ check_listings pairs = .ok n7 ∧
      report.notes =
        [check_authorities tm, check_liquidity pairs lock, check_tradeability ti,
          n4, check_age_hype now pairs, check_pump_fun pfi, n7]) ∧
    report.notes.map RiskNote.rule_name =
      ["Authorities", "Liquidity", "Tradeability", "Concentration", "Age/Hype",
        "Pump.fun", "Listings"] ∧
    (∀ n ∈ report.notes, n.rule_name ≠ "RugCheck") ∧
    report.overall_score = calculate_overall_score report.notes := by
  unfold assess_token_risk at h
  cases hc : check_concentration holders <;> rw [hc] at h
  · exact absurd h (by simp)
  case ok n4 =>
  cases hl : check_listings pairs <;> rw [hl] at h
  · exact absurd h (by simp)
  case ok n7 =>
  dsimp only at h
  cases h
  have hnames :
      [check_authorities tm, check_liquidity pairs lock, check_tradeability ti,
          n4, check_age_hype now pairs, check_pump_fun pfi, n7].map
        RiskNote.rule_name =
      ["Authorities", "Liquidity", "Tradeability", "Concentration", "Age/Hype",
        "Pump.fun", "Listings"] := by
    simp [check_authorities_name, check_liquidity_name, check_tradeability_name,
      check_concentration_name holders n4 hc, check_age_hype_name,
      check_pump_fun_name, check_listings_name pairs n7 hl]
  refine ⟨⟨n4, n7, rfl, rfl, by simp⟩, by simpa using hnames, ?_, by simp⟩
  intro n hn
  have : n.rule_name ∈
      ["Authorities", "Liquidity", "Tradeability", "Concentration", "Age/Hype",
        "Pump.fun", "Listings"] := by
    rw [← hnames]
    simp only [List.mem_map]
    exact ⟨n, by simpa using hn, rfl⟩
  intro hcontra
  rw [hcontra] at this
  simp at this

/-- C4 witness: the minimal input (address only) yields the seven canonical
notes and composite 15. -/
theorem C4_no_rugcheck_seven_notes_witness :
    (∃ n4 n7, check_concentration ([] : List HolderD) = .ok n4 ∧
      check_listings ([] : List PairD) = .ok n7 ∧
      c4Report.notes =
        [check_authorities none, check_liquidity [] none, check_tradeability none,
          n4, check_age_hype 0 [], check_pump_fun none, n7]) ∧
    c4Report.notes.map RiskNote.rule_name =
      ["Authorities", "Liquidity", "Tradeability", "Concentration", "Age/Hype",
        "Pump.fun", "Listings"] ∧
    (∀ n ∈ c4Report.notes, n.rule_name ≠ "RugCheck") ∧
    c4Report.overall_score = calculate_overall_score c4Report.notes :=
  C4_no_rugcheck_seven_notes 0 "mint" none [] [] none none none [] [] c4Report
    (by rfl)

/-- C5: the claim that `assess_token_risk` never fails is violated by a pair
whose `dex_id` key is present but `None`: the `pair.get("dex_id", "")`
default only covers a missing key, so `check_listings` calls
`None.lower()` and the whole assessment raises `AttributeError` instead of
returning a report. -/
theorem C5_assess_fails_on_null_dex_id :
    assess_token_risk 0 "mint" none [cNullDexPair] [] none none none none [] [] =
      .error lowerErrMsg := by
  rfl

/-- C6: the claim that every rule tolerates a present-but-null field is
violated three times over: a `None` `dex_id` makes `check_listings` raise
`AttributeError`, a `None` `balance` makes `check_concentration` raise
`TypeError` (from `float(None)`), and a `None` `risk_level` makes
`check_rugcheck_override` raise `AttributeError`. -/
theorem C6_rules_raise_on_null_fields :
    check_listings [cNullDexPair] = .error lowerErrMsg ∧
    check_concentration [{ balance := .null }] = .error balErrMsg ∧
    check_rugcheck_override (some { risk_level := .null }) = .error lowerErrMsg :=
  ⟨rfl, rfl, rfl⟩

/-- The only error `balancesOf` can produce is the `float(None)`
`TypeError`. -/
theorem balancesOf_error (l : List HolderD) (e : String)
    (h : balancesOf l = .error e) : e = balErrMsg := by
  induction l with
  | nil => exact absurd h (by simp [balancesOf])
  | cons x t ih =>
    unfold balancesOf at h
    cases hx : x.balance.getD 0 <;> rw [hx] at h
    · cases h; rfl
    · cases ht : balancesOf t <;> rw [ht] at h
      · cases h; exact ih ht
      · exact absurd h (by simp)

/-- A successful `balancesOf` run yields one balance per holder. -/
theorem balancesOf_ok_length (l : List HolderD) (b : List ℚ)
    (h : balancesOf l = .ok b) : b.length = l.length := by
  induction l generalizing b with
  | nil => cases h; rfl
  | cons x t ih =>
    unfold balancesOf at h
    cases hx : x.balance.getD 0 <;> rw [hx] at h
    · exact absurd h (by simp)
    · cases ht : balancesOf t <;> rw [ht] at h
      · exact absurd h (by simp)
      · cases h
        simpa using ih _ ht

/-- `balancesOf` distributes over append: the first `None` balance wins, in
list order. -/
theorem balancesOf_append (a b : List HolderD) :
    balancesOf (a ++ b) =
      match balancesOf a with
      | .error e => .error e
      | .ok xs =>
        match balancesOf b with
        | .error e => .error e
        | .ok ys => .ok (xs ++ ys) := by
  induction a with
  | nil =>
    simp only [List.nil_append, balancesOf]
    cases balancesOf b <;> rfl
  | cons x t ih =>
    cases hx : x.balance.getD 0 with
    | none => simp [balancesOf, hx]
    | some q =>
      simp only [List.cons_append, balancesOf, hx]
      cases ht : balancesOf t <;> cases hb : balancesOf b <;> simp [ih, ht, hb]

/-- Permuting the holders permutes the balances: both runs fail with the
same `TypeError`, or both succeed with permuted balance lists. -/
theorem balancesOf_perm (t₁ t₂ : List HolderD) (h : t₁.Perm t₂) :
    (balancesOf t₁ = .error balErrMsg ∧ balancesOf t₂ = .error balErrMsg) ∨
    (∃ b₁ b₂, balancesOf t₁ = .ok b₁ ∧ balancesOf t₂ = .ok b₂ ∧ b₁.Perm b₂) := by
  induction h with
  | nil => exact .inr ⟨[], [], rfl, rfl, .nil⟩
  | cons x h ih =>
    cases hx : x.balance.getD 0 with
    | none => exact .inl ⟨by simp [balancesOf, hx], by simp [balancesOf, hx]⟩
    | some q =>
      rcases ih with ⟨h1, h2⟩ | ⟨b₁, b₂, h1, h2, hp⟩
      · exact .inl ⟨by simp [balancesOf, hx, h1], by simp [balancesOf, hx, h2]⟩
      · exact .inr ⟨q :: b₁, q :: b₂, by simp [balancesOf, hx, h1],
          by simp [balancesOf, hx, h2], .cons q hp⟩
  | swap x y l =>
    cases hy : y.balance.getD 0 with
    | none =>
      cases hx : x.balance.getD 0 with
      | none => exact .inl ⟨by simp [balancesOf, hx, hy], by simp [balancesOf, hx, hy]⟩
      | some qx => exact .inl ⟨by simp [balancesOf, hx, hy], by simp [balancesOf, hx, hy]⟩
    | some qy =>
      cases hx : x.balance.getD 0 with
      | none => exact .inl ⟨by simp [balancesOf, hx, hy], by simp [balancesOf, hx, hy]⟩
      | some qx =>
        cases hl : balancesOf l with
        | error e =>
          have he := balancesOf_error l e hl
          subst he
          exact .inl ⟨by simp [balancesOf, hx, hy, hl], by simp [balancesOf, hx, hy, hl]⟩
        | ok bs =>
          exact .inr ⟨qy :: qx :: bs, qx :: qy :: bs,
            by simp [balancesOf, hx, hy, hl], by simp [balancesOf, hx, hy, hl],
            List.Perm.swap qx qy bs⟩
  | trans h₁ h₂ ih₁ ih₂ =>
    rcases ih₁ with ⟨a1, a2⟩ | ⟨b₁, b₂, a1, a2, hp₁⟩ <;>
      rcases ih₂ with ⟨c1, c2⟩ | ⟨c₁, c₂, d1, d2, hp₂⟩
    · exact .inl ⟨a1, c2⟩
    · rw [a2] at d1; exact absurd d1 (by simp)
    · rw [c1] at a2; exact absurd a2 (by simp)
    · rw [a2] at d1
      cases d1
      exact .inr ⟨b₁, c₂, a1, d2, hp₁.trans hp₂⟩

/-- The Concentration arithmetic only reads the two top-group prefix sums and
the total, so it is unchanged when the holders beyond the top-10% prefix are
permuted. -/
theorem concentrationFromBalances_congr (n : ℕ) (xs b₁ b₂ : List ℚ)
    (hb : b₁.Perm b₂) (h10 : max 1 (n / 10) ≤ xs.length) :
    concentrationFromBalances n (xs ++ b₁) = concentrationFromBalances n (xs ++ b₂) := by
  have h1 : max 1 (n / 100) ≤ xs.length := by
    refine le_trans (max_le_max (le_refl 1) ?_) h10
    exact Nat.div_le_div_left (by norm_num) (by norm_num)
  have t10 : (xs ++ b₁).take (max 1 (n / 10)) = (xs ++ b₂).take (max 1 (n / 10)) := by
    rw [List.take_append_of_le_length h10, List.take_append_of_le_length h10]
  have t1 : (xs ++ b₁).take (max 1 (n / 100)) = (xs ++ b₂).take (max 1 (n / 100)) := by
    rw [List.take_append_of_le_length h1, List.take_append_of_le_length h1]
  have tsum : (xs ++ b₁).sum = (xs ++ b₂).sum := by
    rw [List.sum_append, List.sum_append, hb.sum_eq]
  unfold concentrationFromBalances
  dsimp only
  rw [t10, t1, tsum]

/-- C7 counterexample: ten equal-content holder lists that differ only in
the position of the 100-balance whale (first vs second) are permutations of
each other, yet `check_concentration` scores them 55 and 0: the rule does
not sort by balance, so the claimed permutation invariance fails. -/
theorem C7_concentration_order_counterexample :
    c7WhaleFirst.Perm c7WhaleSecond ∧
    (check_concentration c7WhaleFirst).toOption.map RiskNote.score = some 55 ∧
    (check_concentration c7WhaleSecond).toOption.map RiskNote.score = some 0 :=
  ⟨List.Perm.swap c7HolderSmall c7HolderBig c7Tail, by decide, by decide⟩

/-- C7 amended: `check_concentration` does not sort; it reads the first
`max(1, n // 100)` and `max(1, n // 10)` holders in caller order plus the
total balance, so its output is order-dependent in general, and it is
invariant exactly under reorderings that leave the top-10%-by-count prefix
untouched: permuting the holders beyond that prefix never changes the
note. -/
theorem C7_concentration_tail_perm_invariant (p t₁ t₂ : List HolderD)
    (hperm : t₁.Perm t₂)
    (hp : max 1 ((p ++ t₁).length / 10) ≤ p.length) :
    check_concentration (p ++ t₁) = check_concentration (p ++ t₂) := by
  have hlen : t₁.length = t₂.length := hperm.length_eq
  have hlen2 : (p ++ t₁).length = (p ++ t₂).length := by simp [hlen]
  unfold check_concentration
  rw [balancesOf_append, balancesOf_append]
  by_cases hemp : (p ++ t₁).isEmpty
  · have hemp2 : (p ++ t₂).isEmpty := by
      rw [List.isEmpty_iff_length_eq_zero] at hemp ⊢
      omega
    rw [if_pos hemp, if_pos hemp2]
  · have hemp2 : ¬(p ++ t₂).isEmpty := by
      rw [List.isEmpty_iff_length_eq_zero] at hemp ⊢
      omega
    rw [if_neg hemp, if_neg hemp2]
    cases hbp : balancesOf p with
    | error e => rfl
    | ok xs =>
      rcases balancesOf_perm t₁ t₂ hperm with ⟨h1, h2⟩ | ⟨b₁, b₂, h1, h2, hp'⟩
      · rw [h1, h2]
      · rw [h1, h2]
        have hxs : xs.length = p.length := balancesOf_ok_length p xs hbp
        rw [hlen2]
        exact congrArg Except.ok
          (concentrationFromBalances_congr ((p ++ t₂).length) xs b₁ b₂ hp'
            (by rw [hxs]; omega))

/-- C7 amended witness: with three holders (5 then 1, 2 in either order) the
top-10% prefix is just the first holder, and the note is identical for both
tails. -/
theorem C7_concentration_tail_perm_invariant_witness :
    check_concentration
        [{ balance := .val 5 }, { balance := .val 1 }, { balance := .val 2 }] =
      check_concentration
        [{ balance := .val 5 }, { balance := .val 2 }, { balance := .val 1 }] :=
  C7_concentration_tail_perm_invariant [{ balance := .val 5 }]
    [{ balance := .val 1 }, { balance := .val 2 }]
    [{ balance := .val 2 }, { balance := .val 1 }]
    (List.Perm.swap ({ balance := .val 2 } : HolderD) ({ balance := .val 1 } : HolderD) [])
    (by decide)

/-- C8 counterexample: with a freeze authority address present but marked
renounced (and no mint authority), the code scores 0 with "Authorities
properly renounced", not the +15 the claim assigns to every present freeze
authority: the source also requires `not is_freeze_renounced`. -/
theorem C8_freeze_renounced_counterexample :
    check_authorities
        (some { mint_authority := .absent, is_mint_authority_renounced := .absent
                freeze_authority := .val "FreezeAuth"
                is_freeze_authority_renounced := .val true }) =
      { rule_name := "Authorities", score := 0
        message := "Authorities properly renounced", severity := "low" } := by
  decide

/-- C8 amended: no metadata gives score 10 / medium; with metadata the score
is 25 when the mint authority is present (truthy) and not renounced plus 15
when the freeze authority is present and NOT renounced, severity follows the
high ≥ 30 / medium ≥ 15 thresholds, no contribution gives score 0 / low with
"Authorities properly renounced", and both contributions give
score 40 / high. -/
theorem C8_authorities_amended (t : TokenMetaD) :
    check_authorities none =
      { rule_name := "Authorities", score := 10
        message := "No authority information available", severity := "medium" } ∧
    (check_authorities (some t)).score =
      (if mintAuthorityFires t then 25 else 0) +
        (if freezeAuthorityFires t then 15 else 0) ∧
    (check_authorities (some t)).severity =
      severityFor 30 15 ((check_authorities (some t)).score) ∧
    (mintAuthorityFires t = false → freezeAuthorityFires t = false →
      check_authorities (some t) =
        { rule_name := "Authorities", score := 0
          message := "Authorities properly renounced", severity := "low" }) ∧
    (mintAuthorityFires t = true → freezeAuthorityFires t = true →
      check_authorities (some t) =
        { rule_name := "Authorities", score := 40
          message := "Mint authority not renounced; Freeze authority present"
          severity := "high" }) := by
  cases hm : mintAuthorityFires t <;> cases hf : freezeAuthorityFires t <;>
    simp [check_authorities, hm, hf, severityFor, joinSemi] <;> decide

/-- C8 amended witness: both authorities present and unrenounced score
40 / high. -/
theorem C8_authorities_amended_witness :
    check_authorities
        (some { mint_authority := .val "M", is_mint_authority_renounced := .val false
                freeze_authority := .val "F"
                is_freeze_authority_renounced := .val false }) =
      { rule_name := "Authorities", score := 40
        message := "Mint authority not renounced; Freeze authority present"
        severity := "high" } :=
  (C8_authorities_amended
      { mint_authority := .val "M", is_mint_authority_renounced := .val false
        freeze_authority := .val "F"
        is_freeze_authority_renounced := .val false }).2.2.2.2
    (by decide) (by decide)

/-- The lock penalty of `check_liquidity` never exceeds 20. -/
theorem specLockPenalty_le (lock : Option LockD) : specLockPenalty lock ≤ 20 := by
  cases lock with
  | none => decide
  | some l =>
    simp only [specLockPenalty]
    split_ifs <;> omega

/-- The score contribution of the lock branch of `check_liquidity` equals
the spec-side penalty. -/
theorem lockEval_score (lock : Option LockD) :
    (lockEval lock).1 = specLockPenalty lock := by
  cases lock with
  | none => rfl
  | some l =>
    simp only [lockEval, specLockPenalty]
    split_ifs <;> rfl

/-- C9: an empty pairs list scores 25 / high; otherwise the score is the
liquidity-threshold contribution on the maximum USD liquidity (25 below
$2,000, 10 below $10,000) plus the mutually exclusive lock penalty (no lock
object 10, not locked 20, locked below 60% locked 15, locked with duration
under 7 days 10), with severity high ≥ 30 / medium ≥ 15; in particular max
liquidity $1,000 with an unlocked lock scores 45 / high (25 + 20). -/
theorem C9_liquidity_rule (pairs : List PairD) (lock : Option LockD)
    (hne : pairs ≠ []) :
    check_liquidity [] lock =
      { rule_name := "Liquidity", score := 25
        message := "No trading pairs found", severity := "high" } ∧
    (check_liquidity pairs lock).score =
      specLiquidityBase (maxLiqUsd pairs) + specLockPenalty lock ∧
    (check_liquidity pairs lock).severity =
      severityFor 30 15 (specLiquidityBase (maxLiqUsd pairs) + specLockPenalty lock) ∧
    check_liquidity [cPair1000] (some cUnlockedLock) =
      { rule_name := "Liquidity", score := 45
        message := "Low liquidity: $1,000; No liquidity lock detected"
        severity := "high" } := by
  have hni : pairs.isEmpty = false := by
    cases pairs with
    | nil => exact absurd rfl hne
    | cons x t => rfl
  have hlp := specLockPenalty_le lock
  refine ⟨rfl, ?_, ?_, by decide⟩
  · unfold check_liquidity
    simp only [hni, Bool.false_eq_true, if_false]
    rw [lockEval_score]
    unfold specLiquidityBase
    split_ifs <;> rw [min_eq_left (by omega)]
  · unfold check_liquidity
    simp only [hni, Bool.false_eq_true, if_false]
    rw [lockEval_score]
    unfold specLiquidityBase
    split_ifs <;> rfl

/-- C9 witness: the concrete $1,000-with-unlocked-lock input scores
25 + 20 = 45. -/
theorem C9_liquidity_rule_witness :
    (check_liquidity [cPair1000] (some cUnlockedLock)).score = 45 :=
  ((C9_liquidity_rule [cPair1000] (some cUnlockedLock) (by decide)).2.1).trans
    (by decide)

/-- C10 counterexample: `check_age_hype` reads the wall clock
(`datetime.now()`): on the same pairs list (one pair created at the epoch)
it returns the 10-point "Very new token" note one hour after creation and
the 0-point "patterns appear normal" note two hundred hours after creation,
so its output is not a function of the pairs list alone. -/
theorem C10_age_hype_clock_counterexample :
    check_age_hype 3600 c10Pairs ≠ check_age_hype 720000 c10Pairs := by
  decide

/-- C10 amended: every rule is a deterministic function of its explicit
arguments together with the clock reading; for a fixed input snapshot the
two reports produced at different clock readings agree on every note except
the Age/Hype slot, which is exactly `check_age_hype` at the respective
clock. -/
theorem C10_clock_only_affects_age_note (t₁ t₂ : ℚ) (mint : String)
    (tm : Option TokenMetaD) (pairs : List PairD) (holders : List HolderD)
    (lock : Option LockD) (ti : Option TradingD) (pfi : Option PumpD)
    (rug : Option RugD) (dsu warns : List String) (r₁ r₂ : RiskReport)
    (h₁ : assess_token_risk t₁ mint tm pairs holders lock ti pfi rug dsu warns =
      .ok r₁)
    (h₂ : assess_token_risk t₂ mint tm pairs holders lock ti pfi rug dsu warns =
      .ok r₂) :
    ∃ pre post, r₁.notes = pre ++ check_age_hype t₁ pairs :: post ∧
      r₂.notes = pre ++ check_age_hype t₂ pairs :: post := by
  unfold assess_token_risk at h₁ h₂
  cases hc : check_concentration holders <;> rw [hc] at h₁ h₂
  · exact absurd h₁ (by simp)
  case ok n4 =>
  cases hl : check_listings pairs <;> rw [hl] at h₁ h₂
  · exact absurd h₁ (by simp)
  case ok n7 =>
  cases rug with
  | none =>
    dsimp only at h₁ h₂
    cases h₁
    cases h₂
    exact ⟨[check_authorities tm, check_liquidity pairs lock,
        check_tradeability ti, n4],
      [check_pump_fun pfi, n7], by simp, by simp⟩
  | some d =>
    dsimp only at h₁ h₂
    cases hro : check_rugcheck_override (some d) <;> rw [hro] at h₁ h₂
    · exact absurd h₁ (by simp)
    case ok n8 =>
    dsimp only at h₁ h₂
    cases h₁
    cases h₂
    exact ⟨[check_authorities tm, check_liquidity pairs lock,
        check_tradeability ti, n4],
      [check_pump_fun pfi, n7, n8], by simp, by simp⟩

/-- C10 amended witness: the two concrete reports for `c10Pairs`, scored one
hour and two hundred hours after pair creation, share every note except the
Age/Hype slot. -/
theorem C10_clock_only_affects_age_note_witness :
    ∃ pre post, c10Report1.notes = pre ++ check_age_hype 3600 c10Pairs :: post ∧
      c10Report2.notes = pre ++ check_age_hype 720000 c10Pairs :: post :=
  C10_clock_only_affects_age_note 3600 720000 "mint" none c10Pairs [] none none
    none none [] [] c10Report1 c10Report2 (by rfl) (by rfl)

end SolSafety
